import Mathlib

/-!
Verification development for the Math-Learning-Agent pipeline.

Shallow embedding of the core components (guardrails, router, solver,
orchestrator, feedback store, DSPy optimizer, RAG agent, vector store).
External model invocations are modelled as oracle values of type
`Except String String` (`.ok reply` for a successful call returning the
reply text, `.error msg` for a raised exception), so each embedded
operation is a pure function of its inputs and the oracle outcomes.
Python strings are modelled by Lean `String` restricted to the ASCII
fragment actually exercised here; Python `float` confidences are
modelled by `ℚ`.
-/

namespace MathAgent

/-! ### Python string primitives -/

/-- Python whitespace characters recognised by `str.strip` / `str.split()`. -/
def isPyWs (c : Char) : Bool :=
  c = ' ' || c = '\t' || c = '\n' || c = '\r' || c = '\x0b' || c = '\x0c'

/-- Python `str.lower()` (ASCII fragment). -/
def pyLower (s : String) : String := ⟨s.data.map Char.toLower⟩

/-- Python `str.upper()` (ASCII fragment). -/
def pyUpper (s : String) : String := ⟨s.data.map Char.toUpper⟩

/-- Substring occurrence on character lists: Python `pat in s`. -/
def containsCL (s pat : List Char) : Bool :=
  match s with
  | [] => pat.isEmpty
  | _ :: t => pat.isPrefixOf s || containsCL t pat

/-- Python `pat in s` for strings. -/
def pyContains (s pat : String) : Bool := containsCL s.data pat.data

/-- Python `s.startswith(pat)`. -/
def pyStartsWith (s pat : String) : Bool := pat.data.isPrefixOf s.data

/-- Python `s.endswith(pat)`. -/
def pyEndsWith (s pat : String) : Bool := pat.data.isSuffixOf s.data

/-- Python `s.strip()`: drop leading and trailing whitespace. -/
def pyStrip (s : String) : String :=
  ⟨((s.data.dropWhile isPyWs).reverse.dropWhile isPyWs).reverse⟩

/-- Split a character list on a separator character (Python `s.split(sep)`). -/
def splitOnCharCL (sep : Char) : List Char → List (List Char)
  | [] => [[]]
  | a :: t =>
    let r := splitOnCharCL sep t
    if a = sep then [] :: r
    else
      match r with
      | [] => [[a]]
      | h :: t2 => (a :: h) :: t2

/-- Python `s.split(sep)` for a one-character separator. -/
def pySplitChar (sep : Char) (s : String) : List String :=
  (splitOnCharCL sep s.data).map (fun l => ⟨l⟩)

/-- Python `s.split('\n')`, the per-line iteration used by all reply parsers. -/
def pyLines (s : String) : List String := pySplitChar '\n' s

/-- Helper for Python `s.split()` (no argument): accumulate the current word. -/
def pySplitWsAux : List Char → List Char → List (List Char)
  | cur, [] => if cur.isEmpty then [] else [cur.reverse]
  | cur, c :: t =>
    if isPyWs c then
      if cur.isEmpty then pySplitWsAux [] t else cur.reverse :: pySplitWsAux [] t
    else pySplitWsAux (c :: cur) t

/-- Python `s.split()`: split on whitespace runs, discarding empty pieces. -/
def pySplitWs (s : String) : List String :=
  (pySplitWsAux [] s.data).map (fun l => ⟨l⟩)

/-- Characters after the first occurrence of `sep`, if any. -/
def afterCharCL (sep : Char) : List Char → Option (List Char)
  | [] => none
  | a :: t => if a = sep then some t else afterCharCL sep t

/-- Python `s.split(":", 1)[1]`.  Every call site first checks
`s.startswith(tag)` for a `tag` containing a colon, so the occurrence is
guaranteed; the `""` default is unreachable there. -/
def afterColon (s : String) : String :=
  match afterCharCL ':' s.data with
  | some t => ⟨t⟩
  | none => ""

/-- First-occurrence deduplication (models building a Python `set` and
listing it; iteration order of the model is first occurrence). -/
def dedupAux : List String → List String → List String
  | _, [] => []
  | seen, a :: t =>
    if seen.contains a then dedupAux seen t
    else a :: dedupAux (a :: seen) t

def dedupFirst (l : List String) : List String := dedupAux [] l

/-- ASCII digit test (Python `str.isdigit` on the ASCII inputs used here). -/
def isAsciiDigit (c : Char) : Bool := '0' ≤ c && c ≤ '9'

/-- Numeric value of a digit run, `none` if empty or non-digit. -/
def parseDigitsAux : ℕ → List Char → Option ℕ
  | acc, [] => some acc
  | acc, c :: t =>
    if isAsciiDigit c then parseDigitsAux (acc * 10 + (c.toNat - '0'.toNat)) t
    else none

/-- Python `float(s)` on the plain decimal fragment `[+-]digits[.digits]`
(with at least one digit); other inputs raise, modelled as `none`.
Only this fragment is ever produced by the judge replies considered here. -/
def pyFloat (s : String) : Option ℚ :=
  let l := (pyStrip s).data
  let (sign, body) : ℚ × List Char :=
    match l with
    | '-' :: t => (-1, t)
    | '+' :: t => (1, t)
    | _ => (1, l)
  match splitOnCharCL '.' body with
  | [intPart] =>
    match parseDigitsAux 0 intPart with
    | some n => if intPart.isEmpty then none else some (sign * n)
    | none => none
  | [intPart, fracPart] =>
    if intPart.isEmpty && fracPart.isEmpty then none
    else
      match parseDigitsAux 0 intPart, parseDigitsAux 0 fracPart with
      | some n, some f => some (sign * (n + (f : ℚ) / (10 : ℚ) ^ fracPart.length))
      | _, _ => none
  | _ => none

/-! ### Input guardrail (`src/agents/guardrails.py`, class `InputGuardrail`) -/

namespace InputGuardrail

/-- Transcription of `InputGuardrail.MATH_KEYWORDS`, verbatim. -/
def MATH_KEYWORDS : List String :=
  [ "solve", "calculate", "find", "equation", "formula", "prove", "simplify",
    "evaluate", "compute", "determine", "derive", "integrate", "differentiate",
    "algebra", "calculus", "geometry", "trigonometry", "statistics", "probability",
    "arithmetic", "matrix", "vector", "function", "polynomial", "logarithm",
    "add", "subtract", "multiply", "divide", "sum", "product", "quotient",
    "derivative", "integral", "limit", "series", "sequence", "permutation",
    "number", "angle", "triangle", "circle", "square", "rectangle", "sphere",
    "line", "point", "graph", "plot", "variable", "constant", "coefficient",
    "theorem", "proof", "lemma", "corollary", "axiom", "postulate",
    "differential", "partial", "gradient", "divergence", "curl",
    "pi", "theta", "alpha", "beta", "gamma", "delta", "sigma", "infinity" ]

/-- The operator characters scanned by `_quick_keyword_check`. -/
def OPERATOR_CHARS : List Char := ['+', '-', '*', '/', '=', '^', '√', '∫', '∑']

/-- Embedding of `InputGuardrail._quick_keyword_check`. -/
def quickKeywordCheck (input_text : String) : Bool :=
  let input_lower := pyLower input_text
  let math_score := (MATH_KEYWORDS.filter (fun k => pyContains input_lower k)).length
  let has_numbers := input_text.data.any Char.isDigit
  let has_operators := OPERATOR_CHARS.any (fun op => input_text.data.contains op)
  let has_x_variable := pyContains input_lower " x " || pyStartsWith input_lower "x "
    || pyEndsWith input_lower " x"
  let relevance_score := math_score + (if has_numbers then 1 else 0)
    + (if has_operators then 2 else 0) + (if has_x_variable then 1 else 0)
  decide (2 ≤ relevance_score)

end InputGuardrail

/-- The dictionary returned by `InputGuardrail.validate`. -/
structure InputValidation where
  valid : Bool
  category : String
  reason : String
  confidence : ℚ
  quick_check_passed : Bool
deriving DecidableEq

namespace InputGuardrail

/-- Accumulator for the four-field line parse in `InputGuardrail.validate`. -/
structure ParsedInput where
  valid : Bool
  category : String
  reason : String
  confidence : ℚ
deriving DecidableEq

/-- One iteration of the parsing loop over the judge reply lines. -/
def parseLine (st : ParsedInput) (rawLine : String) : ParsedInput :=
  let line := pyStrip rawLine
  if pyStartsWith line "VALID:" then
    { st with valid := pyContains (pyUpper line) "YES" }
  else if pyStartsWith line "CATEGORY:" then
    { st with category := pyLower (pyStrip (afterColon line)) }
  else if pyStartsWith line "REASON:" then
    { st with reason := pyStrip (afterColon line) }
  else if pyStartsWith line "CONFIDENCE:" then
    { st with confidence :=
        match pyFloat (pyStrip (afterColon line)) with
        | some v => v
        | none => 1/2 }
  else st

/-- Parse of the stripped judge reply (`for line in content.split('\n')`). -/
def parseReply (content : String) : ParsedInput :=
  (pyLines content).foldl parseLine ⟨false, "unknown", "", 0⟩

/-- Embedding of `InputGuardrail.validate`.  `strict_mode` is the gate's flag; `judge`
is the outcome of the model call `chain.invoke(...)` were it made. -/
def validate (strict_mode : Bool) (judge : Except String String)
    (input_text : String) : InputValidation :=
  let quick_check := quickKeywordCheck input_text
  if !quick_check && strict_mode then
    { valid := false
      category := "non-mathematics"
      reason := "Input does not appear to be mathematics-related. Please ask mathematics questions only."
      confidence := 7/10
      quick_check_passed := false }
  else
    match judge with
    | .ok content =>
      let p := parseReply (pyStrip content)
      { valid := p.valid, category := p.category, reason := p.reason,
        confidence := p.confidence, quick_check_passed := quick_check }
    | .error e =>
      { valid := !strict_mode
        category := "error"
        reason := "Validation error: " ++ e
        confidence := 0
        quick_check_passed := quick_check }

end InputGuardrail

/-! ### Output guardrail (`src/agents/guardrails.py`, class `OutputGuardrail`) -/

/-- The dictionary returned by `OutputGuardrail.validate`. -/
structure OutputValidation where
  approved : Bool
  on_topic : Bool
  educational : Bool
  issues : List String
  confidence : ℚ
  modified_response : String
deriving DecidableEq

namespace OutputGuardrail

/-- Embedding of `OutputGuardrail._quick_response_check`: minimum length plus lexical
overlap with the question.  (The `blocked_phrases` list in the source is
defined but never consulted.) -/
def quickResponseCheck (response original_question : String) : Bool :=
  if response.data.length < 20 then false
  else
    let question_words := dedupFirst (pySplitWs (pyLower original_question))
    let response_words := pySplitWs (pyLower response)
    let overlap := (question_words.filter (fun w => response_words.contains w)).length
    decide (0 < overlap)

/-- Embedding of `OutputGuardrail._create_fallback_response`. -/
def fallbackResponse (question : String) (category : Option String) : String :=
  let category_text := match category with
    | some c => " related to " ++ c
    | none => ""
  "I apologize, but I can only provide help with mathematics education"
    ++ category_text ++ ". \n\nYour question was: \"" ++ question
    ++ "\"\n\nPlease rephrase your question to focus on mathematics concepts, problems, or educational topics. \n\nFor example:\n- \"How do I solve this equation: 2x + 5 = 15?\"\n- \"Explain the Pythagorean theorem\"\n- \"What is the derivative of x^2?\"\n\nI\x27m here to help with your mathematics learning!"

/-- Accumulator for the five-field line parse in `OutputGuardrail.validate`. -/
structure ParsedOutput where
  approved : Bool
  on_topic : Bool
  educational : Bool
  issues : List String
  confidence : ℚ
deriving DecidableEq

/-- One iteration of the parsing loop over the judge reply lines. -/
def parseLine (st : ParsedOutput) (rawLine : String) : ParsedOutput :=
  let line := pyStrip rawLine
  if pyStartsWith line "APPROVED:" then
    { st with approved := pyContains (pyUpper line) "YES" }
  else if pyStartsWith line "ON_TOPIC:" then
    { st with on_topic := pyContains (pyUpper line) "YES" }
  else if pyStartsWith line "EDUCATIONAL:" then
    { st with educational := pyContains (pyUpper line) "YES" }
  else if pyStartsWith line "ISSUES:" then
    let issues_text := pyStrip (afterColon line)
    if pyLower issues_text ≠ "none" then
      { st with issues := (pySplitChar ',' issues_text).map pyStrip }
    else st
  else if pyStartsWith line "CONFIDENCE:" then
    { st with confidence :=
        match pyFloat (pyStrip (afterColon line)) with
        | some v => v
        | none => 1/2 }
  else st

/-- Parse of the stripped judge reply. -/
def parseReply (content : String) : ParsedOutput :=
  (pyLines content).foldl parseLine ⟨false, false, false, [], 0⟩

/-- Embedding of `OutputGuardrail.validate` with the cheap sanity check abstracted as a
parameter `qc`; the source computes `qc ai_response original_question`,
logs it, and builds the result exclusively from the judge reply. -/
def validateWithQC (qc : String → String → Bool) (judge : Except String String)
    (ai_response original_question : String) (category : Option String) :
    OutputValidation :=
  let _quick_check := qc ai_response original_question
  match judge with
  | .ok content =>
    let p := parseReply (pyStrip content)
    { approved := p.approved, on_topic := p.on_topic, educational := p.educational,
      issues := p.issues, confidence := p.confidence,
      modified_response :=
        if p.approved then ai_response
        else fallbackResponse original_question category }
  | .error e =>
    { approved := true
      on_topic := true
      educational := true
      issues := ["Validation error: " ++ e]
      confidence := 0
      modified_response := ai_response }

/-- Embedding of `OutputGuardrail.validate` as in the source, with its own quick check. -/
def validate (judge : Except String String) (ai_response original_question : String)
    (category : Option String) : OutputValidation :=
  validateWithQC quickResponseCheck judge ai_response original_question category

end OutputGuardrail

/-! ### Router agent (`src/agents/router_agent.py`) -/

/-- The dictionary returned by `RouterAgent.route_problem`. -/
structure RouteResult where
  category : String
  reasoning : String
  raw_response : String
  guardrail_status : String
  guardrail_details : Option InputValidation
deriving DecidableEq

namespace RouterAgent

/-- Transcription of `RouterAgent.PROBLEM_TYPES`. -/
def PROBLEM_TYPES : List String :=
  ["algebra", "calculus", "geometry", "statistics", "general"]

/-- The two-line parse of the classifier reply (`Category:` / `Reasoning:`
line handling; note the source does not strip the individual lines here). -/
def parseReply (content : String) : String × String :=
  (pyLines (pyStrip content)).foldl
    (fun (st : String × String) line =>
      if pyStartsWith line "Category:" then
        (pyLower (pyStrip (afterColon line)), st.2)
      else if pyStartsWith line "Reasoning:" then
        (st.1, pyStrip (afterColon line))
      else st)
    ("general", "")

/-- STEP 2 of `RouterAgent.route_problem`: the classification call and its
parse, including the out-of-set coercion to `general` and the error path. -/
def classify (enable_guardrails : Bool) (guardrail_result : Option InputValidation)
    (classifier : Except String String) : RouteResult :=
  match classifier with
  | .ok content =>
    let parsed := parseReply content
    let category := if parsed.1 ∈ PROBLEM_TYPES then parsed.1 else "general"
    { category := category
      reasoning := parsed.2
      raw_response := content
      guardrail_status := if enable_guardrails then "approved" else "disabled"
      guardrail_details := guardrail_result }
  | .error e =>
    { category := "general"
      reasoning := "Error in routing: " ++ e
      raw_response := ""
      guardrail_status := if enable_guardrails then "approved" else "disabled"
      guardrail_details := guardrail_result }

/-- Embedding of `RouterAgent.route_problem`.  `guardJudge` and `classifier` are the
outcomes of the two model calls were they made. -/
def routeProblem (enable_guardrails strict_mode : Bool)
    (guardJudge classifier : Except String String) (problem : String) : RouteResult :=
  let guardrail_result : Option InputValidation :=
    if enable_guardrails then some (InputGuardrail.validate strict_mode guardJudge problem)
    else none
  match guardrail_result with
  | some gr =>
    if gr.valid = false then
      { category := "blocked"
        reasoning := gr.reason
        raw_response := ""
        guardrail_status := "blocked"
        guardrail_details := some gr }
    else classify enable_guardrails guardrail_result classifier
  | none => classify enable_guardrails guardrail_result classifier

end RouterAgent

/-! ### Solver agent (`src/agents/solver_agent.py`, `config/settings.py`) -/

/-- Transcription of `Settings.TEMPERATURE_CONFIG`. -/
def TEMPERATURE_CONFIG : List (String × ℚ) :=
  [("algebra", 3/10), ("calculus", 3/10), ("geometry", 4/10),
   ("statistics", 4/10), ("general", 5/10)]

/-- Embedding of `settings.TEMPERATURE_CONFIG.get(category, 0.3)`. -/
def temperatureFor (category : String) : ℚ :=
  match TEMPERATURE_CONFIG.lookup category with
  | some t => t
  | none => 3/10

/-- Value of `settings.LLM_MODEL` (environment default). -/
def LLM_MODEL : String := "llama-3.3-70b-versatile"

/-- The dictionary returned by `SolverAgent.solve_problem`.  The `error`
key is present only on the exception path, modelled with `Option`. -/
structure Solution where
  problem : String
  category : String
  solution : String
  model_used : String
  temperature : ℚ
  guardrail_status : String
  guardrail_details : Option OutputValidation
  error : Option String
deriving DecidableEq

namespace SolverAgent

/-- Temperature of the LLM that actually produces the generation
(`llm = LLMFactory.create_llm(model=model, temperature=temperature) if model
else self.llm` in `solve_problem`): the per-category temperature is applied
only when an explicit model override is given; otherwise the agent's own
LLM, whose temperature was fixed at construction (`self_temp`), is used. -/
def generationTemperature (self_temp : ℚ) (model : Option String)
    (category : String) : ℚ :=
  match model with
  | some _ => temperatureFor category
  | none => self_temp

/-- Embedding of `SolverAgent.solve_problem`.  `self_temp` is the temperature of the
agent's construction-time LLM (`LLMFactory.create_llm` defaults it to 0.3);
`generation` maps the temperature the model call is issued with to its
outcome; `outJudge` is the output-guardrail judge outcome. -/
def solveProblem (enable_guardrails : Bool) (self_temp : ℚ)
    (outJudge : Except String String) (generation : ℚ → Except String String)
    (problem category : String) (model : Option String) : Solution :=
  let temperature := temperatureFor category
  match generation (generationTemperature self_temp model category) with
  | .error e =>
    { problem := problem
      category := category
      solution := "Error solving problem: " ++ e
      model_used := model.getD LLM_MODEL
      temperature := 3/10
      guardrail_status := "error"
      guardrail_details := none
      error := some e }
  | .ok raw_solution =>
    let guardrail_result : Option OutputValidation :=
      if enable_guardrails then
        some (OutputGuardrail.validate outJudge raw_solution problem (some category))
      else none
    let final_solution :=
      match guardrail_result with
      | some g => if g.approved = false then g.modified_response else raw_solution
      | none => raw_solution
    { problem := problem
      category := category
      solution := final_solution
      model_used := model.getD LLM_MODEL
      temperature := temperature
      guardrail_status :=
        match guardrail_result with
        | some g => if g.approved then "approved" else "modified"
        | none => "approved"
      guardrail_details := guardrail_result
      error := none }

end SolverAgent

/-! ### Orchestrator (`src/agents/orchestrator.py`) -/

/-- The partial solution dictionary built on the blocked path of
`MathAgentOrchestrator.process_problem`. -/
structure BlockedSolution where
  solution : String
  category : String
  problem : String
deriving DecidableEq

/-- The result dictionary of `process_problem`; its two shapes (blocked vs
completed pipeline) carry different keys, modelled as two constructors. -/
inductive PipelineResult where
  | blocked (problem : String) (routing : RouteResult) (solution : BlockedSolution)
  | completed (problem : String) (routing : RouteResult) (solution : Solution)
      (guardrail_input_status guardrail_output_status : String)
deriving DecidableEq

/-- The `pipeline_status` key of the result dictionary. -/
def PipelineResult.pipeline_status : PipelineResult → String
  | .blocked _ _ _ => "blocked_by_guardrail"
  | .completed _ _ _ _ _ => "success"

/-- Embedding of `MathAgentOrchestrator.process_problem`: route (with input guardrail),
short-circuit on a blocked verdict, otherwise solve (with output guardrail). -/
def processProblem (enable_guardrails strict_mode : Bool)
    (guardJudge classifier outJudge : Except String String)
    (generation : ℚ → Except String String) (solver_self_temp : ℚ)
    (problem : String) (model : Option String) : PipelineResult :=
  let routing_result :=
    RouterAgent.routeProblem enable_guardrails strict_mode guardJudge classifier problem
  if routing_result.guardrail_status = "blocked" then
    .blocked problem routing_result
      { solution := routing_result.reasoning, category := "blocked", problem := problem }
  else
    let solution_result :=
      SolverAgent.solveProblem enable_guardrails solver_self_temp outJudge generation
        problem routing_result.category model
    .completed problem routing_result solution_result
      routing_result.guardrail_status solution_result.guardrail_status

/-! ### Feedback agent (`src/agents/feedback_agent.py`) -/

/-- One entry of the persisted feedback log (`collect_feedback` always
writes every key; `approved` is set to `rating >= 4` there). -/
structure FeedbackRecord where
  timestamp : String
  problem : String
  category : String
  solution : String
  rating : ℤ
  comments : String
  correct_answer : Option String
  approved : Bool
deriving DecidableEq

namespace FeedbackAgent

/-- The feedback entry built by `FeedbackAgent.collect_feedback`
(`approved` is `rating >= 4`, never an independent input). -/
def mkFeedbackEntry (timestamp problem category solution : String) (rating : ℤ)
    (comments : String) (correct_answer : Option String) : FeedbackRecord :=
  { timestamp := timestamp, problem := problem, category := category,
    solution := solution, rating := rating, comments := comments,
    correct_answer := correct_answer, approved := decide (4 ≤ rating) }

/-- The per-category dictionary inside `category_stats`.  While the loop
builds it the `average_rating` key is absent; it is added by the final
pass, modelled by carrying a placeholder value of `0` until then. -/
structure CategoryStat where
  count : ℕ
  total_rating : ℤ
  approved : ℕ
  average_rating : ℚ
deriving DecidableEq

/-- One iteration of the category-statistics loop in `get_feedback_stats`
(insertion-ordered dictionary update). -/
def bumpCategory : List (String × CategoryStat) → FeedbackRecord →
    List (String × CategoryStat)
  | [], r =>
    [(r.category,
      { count := 1, total_rating := r.rating,
        approved := if r.approved then 1 else 0, average_rating := 0 })]
  | (c, s) :: t, r =>
    if c = r.category then
      (c, { s with
              count := s.count + 1
              total_rating := s.total_rating + r.rating
              approved := s.approved + (if r.approved then 1 else 0) }) :: t
    else (c, s) :: bumpCategory t r

/-- The dictionary returned by `get_feedback_stats`.  The `approval_rate`
key is absent from the empty-store result, modelled with `Option`. -/
structure FeedbackStats where
  total_feedback : ℕ
  average_rating : ℚ
  approved_count : ℕ
  approval_rate : Option ℚ
  category_stats : List (String × CategoryStat)
deriving DecidableEq

/-- Embedding of `FeedbackAgent.get_feedback_stats`, as a function of the full feedback
history the file load returns. -/
def getFeedbackStats (feedback_data : List FeedbackRecord) : FeedbackStats :=
  if feedback_data.isEmpty then
    { total_feedback := 0
      average_rating := 0
      approved_count := 0
      approval_rate := none
      category_stats := [] }
  else
    let total := feedback_data.length
    let ratings_sum : ℤ := (feedback_data.map (·.rating)).sum
    let approved := (feedback_data.filter (·.approved)).length
    let built := feedback_data.foldl bumpCategory []
    let category_stats := built.map (fun p =>
      (p.1, { p.2 with average_rating := (p.2.total_rating : ℚ) / (p.2.count : ℚ) }))
    { total_feedback := total
      average_rating := (ratings_sum : ℚ) / (total : ℚ)
      approved_count := approved
      approval_rate := some ((approved : ℚ) / (total : ℚ))
      category_stats := category_stats }

end FeedbackAgent

/-! ### DSPy feedback optimizer (`src/tools/dspy_optimizer.py`) -/

namespace DSPyOptimizer

/-- A `dspy.Example` built by `_create_training_examples`. -/
structure TrainExample where
  problem : String
  category : String
  solution : String
deriving DecidableEq

/-- Embedding of `_create_training_examples`: only approved (`rating >= 4`) feedback
entries become training examples. -/
def createTrainingExamples (feedback_list : List FeedbackRecord) : List TrainExample :=
  (feedback_list.filter (fun e => e.approved && decide (4 ≤ e.rating))).map
    (fun e => { problem := e.problem, category := e.category, solution := e.solution })

/-- One iteration of `_group_feedback_by_category` (insertion-ordered
dictionary of lists, appending each entry to its category's list). -/
def addToGroup : List (String × List FeedbackRecord) → FeedbackRecord →
    List (String × List FeedbackRecord)
  | [], r => [(r.category, [r])]
  | (c, l) :: t, r =>
    if c = r.category then (c, l ++ [r]) :: t
    else (c, l) :: addToGroup t r

/-- Embedding of `_group_feedback_by_category`. -/
def groupByCategory (feedback_data : List FeedbackRecord) :
    List (String × List FeedbackRecord) :=
  feedback_data.foldl addToGroup []

/-- The category/feedback pairs the optimization loop iterates over:
all groups, or the single requested category with its (possibly empty)
group (`{category: category_feedback.get(category, [])}`). -/
def selectedGroups (feedback_data : List FeedbackRecord) (category : Option String) :
    List (String × List FeedbackRecord) :=
  match category with
  | some c =>
    [(c, ((groupByCategory feedback_data).lookup c).getD [])]
  | none => groupByCategory feedback_data

/-- Embedding of `self.optimized_solvers[cat] = solver`: insert-or-replace on the
persisted per-category solver dictionary. -/
def setSolver {α : Type} : List (String × α) → String → α → List (String × α)
  | [], c, v => [(c, v)]
  | (c0, v0) :: t, c, v =>
    if c0 = c then (c0, v) :: t else (c0, v0) :: setSolver t c v

/-- Whether one loop iteration of `optimize_from_feedback` optimizes its
category: at least 3 feedback records, at least 2 training examples, and a
successful `optimizer.compile` (a per-category exception is swallowed). -/
def qualifies {α : Type} (compileFn : String → List TrainExample → Except String α)
    (p : String × List FeedbackRecord) : Bool :=
  !decide (p.2.length < 3) && !decide ((createTrainingExamples p.2).length < 2)
    && (match compileFn p.1 (createTrainingExamples p.2) with
        | .ok _ => true
        | .error _ => false)

/-- One iteration of the optimization loop: the accumulator carries
`optimized_categories` so far and the solver dictionary. -/
def optStep {α : Type} (compileFn : String → List TrainExample → Except String α)
    (acc : List String × List (String × α)) (p : String × List FeedbackRecord) :
    List String × List (String × α) :=
  if p.2.length < 3 then acc
  else
    let trainset := createTrainingExamples p.2
    if trainset.length < 2 then acc
    else
      match compileFn p.1 trainset with
      | .ok s => (acc.1 ++ [p.1], setSolver acc.2 p.1 s)
      | .error _ => acc

/-- The result dictionary of `optimize_from_feedback`; `total_feedback`
is absent from the empty-store result, modelled with `Option`. -/
structure OptimizeResult where
  status : String
  optimized_categories : List String
  total_feedback : Option ℕ
deriving DecidableEq

/-- Embedding of `DSPyFeedbackOptimizer.optimize_from_feedback`.  `compileFn` is the
outcome of `dspy.BootstrapFewShot(...).compile` for a category and
trainset; the returned pair is the result dictionary together with the
updated `optimized_solvers` dictionary. -/
def optimizeFromFeedback {α : Type}
    (compileFn : String → List TrainExample → Except String α)
    (solvers : List (String × α)) (feedback_data : List FeedbackRecord)
    (category : Option String) : OptimizeResult × List (String × α) :=
  if feedback_data.isEmpty then
    ({ status := "no_data", optimized_categories := [], total_feedback := none }, solvers)
  else
    let r := (selectedGroups feedback_data category).foldl (optStep compileFn) ([], solvers)
    ({ status := if r.1.isEmpty then "no_optimization" else "success"
       optimized_categories := r.1
       total_feedback := some feedback_data.length }, r.2)

end DSPyOptimizer

/-! ### Vector store (`src/tools/vector_store.py`) -/

namespace VectorStore

/-- The metadata dictionary stored with each chunk (keys may be absent). -/
structure ChunkMeta where
  source : Option String
  category : Option String
deriving DecidableEq

/-- One stored chunk of the ChromaDB collection. -/
structure StoredChunk where
  id : String
  text : String
  meta : ChunkMeta
deriving DecidableEq

/-- Embedding of `VectorStoreManager.delete_document`: collect the ids whose metadata
`source` equals the document name; when none match, no deletion is issued
and `False` is returned. -/
def deleteDocument (col : List StoredChunk) (document_name : String) :
    Bool × List StoredChunk :=
  let ids_to_delete :=
    (col.filter (fun c => c.meta.source = some document_name)).map (·.id)
  if ids_to_delete.isEmpty then (false, col)
  else (true, col.filter (fun c => !ids_to_delete.contains c.id))

/-- Embedding of `VectorStoreManager.clear_collection`: drop and recreate the
collection (succeeds also on an already-empty collection). -/
def clearCollection (_col : List StoredChunk) : Bool × List StoredChunk :=
  (true, [])

/-- The dictionary returned by `get_collection_stats`. -/
structure CollectionStats where
  total_chunks : ℕ
  categories : List String
  unique_documents : ℕ
  document_names : List String
deriving DecidableEq

/-- Embedding of `VectorStoreManager.get_collection_stats`: on a non-empty collection,
scan a bounded sample (`limit=min(1000, count)`) of the metadata; sets are
modelled as first-occurrence-deduplicated lists. -/
def getCollectionStats (col : List StoredChunk) : CollectionStats :=
  let count := col.length
  if 0 < count then
    let sample := col.take (min 1000 count)
    let categories := dedupFirst (sample.filterMap (·.meta.category))
    let sources := dedupFirst (sample.filterMap (·.meta.source))
    { total_chunks := count
      categories := categories
      unique_documents := sources.length
      document_names := sources }
  else
    { total_chunks := 0, categories := [], unique_documents := 0, document_names := [] }

end VectorStore

/-! ### RAG agent (`src/agents/rag_agent.py`) -/

/-- One chunk as returned by `VectorStoreManager.search` to the RAG agent. -/
structure RAGChunk where
  text : String
  source : Option String
  category : Option String
deriving DecidableEq

/-- The dictionary returned by `RAGAgent.answer_question`; the `question`,
`model_used` and `guardrail_details` keys are present only on some paths,
modelled with `Option`. -/
structure RAGResult where
  success : Bool
  question : Option String
  answer : String
  sources : List String
  context_used : ℕ
  model_used : Option String
  guardrail_status : String
  guardrail_details : Option InputValidation
deriving DecidableEq

namespace RAGAgent

/-- Value of `settings.LLM_PROVIDER` (environment default). -/
def LLM_PROVIDER : String := "groq"

/-- Embedding of `RAGAgent._extract_sources`: the set of source names (modelled as a
first-occurrence-deduplicated list), with `Unknown` for a missing key. -/
def extractSources (chunks : List RAGChunk) : List String :=
  dedupFirst (chunks.map (fun c => c.source.getD "Unknown"))

/-- STEP 2 onwards of `RAGAgent.answer_question`: retrieval result test,
generation, output guardrail.  `context_chunks` is the value returned by
`vector_store.search`; `generation` is the outcome of `llm.invoke` were it
made (an exception there is caught by the surrounding `try`). -/
def answerWithContext (enable_guardrails : Bool) (outJudge : Except String String)
    (context_chunks : List RAGChunk) (generation : Except String String)
    (question : String) (category : Option String) : RAGResult :=
  if context_chunks.isEmpty then
    { success := false
      question := none
      answer := "No relevant information found in the knowledge base. Please upload relevant documents first."
      sources := []
      context_used := 0
      model_used := none
      guardrail_status := "no_context"
      guardrail_details := none }
  else
    match generation with
    | .error e =>
      { success := false
        question := none
        answer := "Error generating answer: " ++ e
        sources := []
        context_used := 0
        model_used := none
        guardrail_status := "error"
        guardrail_details := none }
    | .ok raw_answer =>
      let validated : String × String :=
        if enable_guardrails then
          let ov := OutputGuardrail.validate outJudge raw_answer question category
          if ov.approved = false then (ov.modified_response, "modified")
          else (raw_answer, "approved")
        else (raw_answer, "approved")
      { success := true
        question := some question
        answer := validated.1
        sources := extractSources context_chunks
        context_used := context_chunks.length
        model_used := some (LLM_PROVIDER ++ "/" ++ LLM_MODEL)
        guardrail_status := validated.2
        guardrail_details := none }

/-- Embedding of `RAGAgent.answer_question`: input guardrail, then retrieval-dependent
answering. -/
def answerQuestion (enable_guardrails strict_mode : Bool)
    (inJudge outJudge : Except String String) (context_chunks : List RAGChunk)
    (generation : Except String String) (question : String)
    (category : Option String) : RAGResult :=
  let input_validation : Option InputValidation :=
    if enable_guardrails then
      some (InputGuardrail.validate strict_mode inJudge question)
    else none
  match input_validation with
  | some iv =>
    if iv.valid = false then
      { success := false
        question := none
        answer := iv.reason
        sources := []
        context_used := 0
        model_used := none
        guardrail_status := "input_blocked"
        guardrail_details := some iv }
    else answerWithContext enable_guardrails outJudge context_chunks generation question category
  | none =>
    answerWithContext enable_guardrails outJudge context_chunks generation question category

end RAGAgent

/-! ## Theorems -/

/-- Claim C2: in strict mode, a question whose quick keyword/symbol relevance
score is below the threshold is rejected with `passed = false`, category
`non-mathematics` and the fixed confidence `0.7`, independently of the judge
oracle (so no judge-model call can influence or be needed for the verdict). -/
theorem input_strict_quick_fail_blocks (judge : Except String String)
    (input_text : String)
    (h : InputGuardrail.quickKeywordCheck input_text = false) :
    InputGuardrail.validate true judge input_text =
      { valid := false
        category := "non-mathematics"
        reason := "Input does not appear to be mathematics-related. Please ask mathematics questions only."
        confidence := 7/10
        quick_check_passed := false } := by
  simp [InputGuardrail.validate, h]

/-- Witness for C2 at the concrete non-mathematics question. -/
theorem input_strict_quick_fail_blocks_witness :
    InputGuardrail.quickKeywordCheck "What is the weather today" = false ∧
    InputGuardrail.validate true (Except.ok "VALID: YES") "What is the weather today" =
      { valid := false
        category := "non-mathematics"
        reason := "Input does not appear to be mathematics-related. Please ask mathematics questions only."
        confidence := 7/10
        quick_check_passed := false } :=
  ⟨by decide, input_strict_quick_fail_blocks (Except.ok "VALID: YES") _ (by decide)⟩

/-- Claim C3: on a judge exception the input validator fails closed in strict
mode (`valid = false`) and open otherwise (`valid = true`), while the output
validator always fails open with `approved = true`, the error text in its
`issues` list, and the original response passed through unmodified. -/
theorem guardrail_judge_failure_policy :
    (∀ (e input_text : String), InputGuardrail.quickKeywordCheck input_text = true →
      InputGuardrail.validate true (Except.error e) input_text =
        { valid := false, category := "error", reason := "Validation error: " ++ e,
          confidence := 0, quick_check_passed := true }) ∧
    (∀ (e input_text : String),
      InputGuardrail.validate false (Except.error e) input_text =
        { valid := true, category := "error", reason := "Validation error: " ++ e,
          confidence := 0,
          quick_check_passed := InputGuardrail.quickKeywordCheck input_text }) ∧
    (∀ (e ai_response original_question : String) (category : Option String),
      OutputGuardrail.validate (Except.error e) ai_response original_question category =
        { approved := true, on_topic := true, educational := true,
          issues := ["Validation error: " ++ e], confidence := 0,
          modified_response := ai_response }) := by
  refine ⟨fun e t h => ?_, fun e t => ?_, fun e r q c => rfl⟩
  · simp [InputGuardrail.validate, h]
  · simp [InputGuardrail.validate]

/-- Witness for C3 at a concrete mathematics question and judge error. -/
theorem guardrail_judge_failure_policy_witness :
    InputGuardrail.quickKeywordCheck "Solve for x: 2x + 5 = 15" = true ∧
    InputGuardrail.validate true (Except.error "boom") "Solve for x: 2x + 5 = 15" =
      { valid := false, category := "error", reason := "Validation error: " ++ "boom",
        confidence := 0, quick_check_passed := true } :=
  ⟨by decide, guardrail_judge_failure_policy.1 "boom" _ (by decide)⟩

/-- Claim C10: the output validator's verdict and chosen response depend
only on the judge reply — replacing the cheap sanity check by any other
function changes nothing — yet the judge is consulted even when the quick
check fails (different judge replies yield different verdicts on a
quick-failing response); the input side, by contrast, short-circuits on
quick-check failure in strict mode (even a crashing judge is ignored). -/
theorem output_quick_check_inert :
    (∀ (qc₁ qc₂ : String → String → Bool) (judge : Except String String)
        (ai_response original_question : String) (category : Option String),
        OutputGuardrail.validateWithQC qc₁ judge ai_response original_question category =
          OutputGuardrail.validateWithQC qc₂ judge ai_response original_question category) ∧
    (OutputGuardrail.quickResponseCheck "no" "Q" = false ∧
      (OutputGuardrail.validate (Except.ok "APPROVED: YES") "no" "Q" none).approved = true ∧
      (OutputGuardrail.validate (Except.ok "APPROVED: NO") "no" "Q" none).approved = false) ∧
    (InputGuardrail.quickKeywordCheck "What is the weather today" = false ∧
      InputGuardrail.validate true (Except.ok "VALID: YES") "What is the weather today" =
        InputGuardrail.validate true (Except.error "judge crashed") "What is the weather today") :=
  ⟨fun _ _ _ _ _ _ => rfl, ⟨by decide, by decide, by decide⟩, ⟨by decide, rfl⟩⟩

/-- Claim C1 counterexample: the router does return a value whose category
is outside the fixed set — when the input guardrail blocks, the returned
category is the out-of-set token `blocked`. -/
theorem router_category_counterexample :
    (RouterAgent.routeProblem true true (Except.ok "VALID: YES")
        (Except.ok "Category: algebra") "What is the weather today").category = "blocked" ∧
    "blocked" ∉ RouterAgent.PROBLEM_TYPES :=
  ⟨by decide, by decide⟩

/-- Helper: STEP 2 of the router always yields a category of the fixed set
(out-of-set classifier tokens are coerced to `general`, and a classifier
exception also degrades to `general`). -/
theorem classify_category_mem (eg : Bool) (gr : Option InputValidation)
    (cl : Except String String) :
    (RouterAgent.classify eg gr cl).category ∈ RouterAgent.PROBLEM_TYPES := by
  cases cl with
  | error e => simp [RouterAgent.classify, RouterAgent.PROBLEM_TYPES]
  | ok content =>
    simp only [RouterAgent.classify]
    split
    · assumption
    · simp [RouterAgent.PROBLEM_TYPES]

/-- Claim C1 (amended): for every router result that the guardrail did not
block, the category is in the fixed set `{algebra, calculus, geometry,
statistics, general}`: any out-of-set classifier token is coerced to
`general`, and a routing error also degrades to `general`. -/
theorem router_category_in_fixed_set (enable_guardrails strict_mode : Bool)
    (guardJudge classifier : Except String String) (problem : String)
    (h : (RouterAgent.routeProblem enable_guardrails strict_mode guardJudge
        classifier problem).guardrail_status ≠ "blocked") :
    (RouterAgent.routeProblem enable_guardrails strict_mode guardJudge
        classifier problem).category ∈ RouterAgent.PROBLEM_TYPES := by
  cases enable_guardrails with
  | false => simpa [RouterAgent.routeProblem] using classify_category_mem false none classifier
  | true =>
    by_cases hv : (InputGuardrail.validate strict_mode guardJudge problem).valid = false
    · exfalso
      apply h
      simp [RouterAgent.routeProblem, hv]
    · simpa [RouterAgent.routeProblem, hv] using
        classify_category_mem true
          (some (InputGuardrail.validate strict_mode guardJudge problem)) classifier

/-- Witness for C1 (amended) at a concrete approved routing. -/
theorem router_category_in_fixed_set_witness :
    (RouterAgent.routeProblem true true (Except.ok "VALID: YES")
        (Except.ok "Category: algebra\nReasoning: linear equation")
        "Solve for x: 2x + 5 = 15").guardrail_status ≠ "blocked" ∧
    (RouterAgent.routeProblem true true (Except.ok "VALID: YES")
        (Except.ok "Category: algebra\nReasoning: linear equation")
        "Solve for x: 2x + 5 = 15").category ∈ RouterAgent.PROBLEM_TYPES :=
  ⟨by decide, router_category_in_fixed_set true true _ _ _ (by decide)⟩

/-- Claim C4: when the input guardrail blocks a question, the orchestrator
returns the blocked pipeline result carrying only the rejection reason as
solution text, with `pipeline_status = "blocked_by_guardrail"`; the result
does not depend on the classifier, solver generation or output-judge
oracles (none of them is invoked). -/
theorem orchestrator_blocked_pipeline (strict_mode : Bool)
    (guardJudge classifier outJudge : Except String String)
    (generation : ℚ → Except String String) (solver_self_temp : ℚ)
    (problem : String) (model : Option String)
    (h : (InputGuardrail.validate strict_mode guardJudge problem).valid = false) :
    processProblem true strict_mode guardJudge classifier outJudge generation
        solver_self_temp problem model =
      PipelineResult.blocked problem
        { category := "blocked"
          reasoning := (InputGuardrail.validate strict_mode guardJudge problem).reason
          raw_response := ""
          guardrail_status := "blocked"
          guardrail_details := some (InputGuardrail.validate strict_mode guardJudge problem) }
        { solution := (InputGuardrail.validate strict_mode guardJudge problem).reason
          category := "blocked"
          problem := problem } ∧
    (processProblem true strict_mode guardJudge classifier outJudge generation
        solver_self_temp problem model).pipeline_status = "blocked_by_guardrail" := by
  have hr : RouterAgent.routeProblem true strict_mode guardJudge classifier problem =
      { category := "blocked"
        reasoning := (InputGuardrail.validate strict_mode guardJudge problem).reason
        raw_response := ""
        guardrail_status := "blocked"
        guardrail_details := some (InputGuardrail.validate strict_mode guardJudge problem) } := by
    simp [RouterAgent.routeProblem, h]
  refine ⟨?_, ?_⟩ <;> simp [processProblem, hr, PipelineResult.pipeline_status]

/-- Witness for C4 at the concrete off-topic question in strict mode. -/
theorem orchestrator_blocked_pipeline_witness :
    (InputGuardrail.validate true (Except.ok "VALID: YES") "What is the weather today").valid = false ∧
    (processProblem true true (Except.ok "VALID: YES") (Except.ok "Category: algebra")
        (Except.ok "APPROVED: YES") (fun _ => Except.ok "sol") (3/10)
        "What is the weather today" none).pipeline_status = "blocked_by_guardrail" :=
  ⟨by decide,
    (orchestrator_blocked_pipeline true (Except.ok "VALID: YES") (Except.ok "Category: algebra")
      (Except.ok "APPROVED: YES") (fun _ => Except.ok "sol") (3/10)
      "What is the weather today" none (by decide)).2⟩

/-- Claim C5 counterexample: without an explicit model override the solver
reuses its construction-time LLM (factory default temperature `0.3`), so for
a successful `general` solve the generation call runs at `0.3` while the
returned Solution's `temperature` field reports the per-category `0.5`: the
category-specific temperature is not the one used for the generation call. -/
theorem solver_generation_temperature_counterexample :
    (SolverAgent.solveProblem false (3/10) (Except.ok "APPROVED: YES")
        (fun _ => Except.ok "the answer is 42") "What is 6 times 7" "general" none).error = none ∧
    (SolverAgent.solveProblem false (3/10) (Except.ok "APPROVED: YES")
        (fun _ => Except.ok "the answer is 42") "What is 6 times 7" "general" none).temperature ≠
      SolverAgent.generationTemperature (3/10) none "general" := by
  refine ⟨rfl, ?_⟩
  show (5 : ℚ)/10 ≠ 3/10
  norm_num

/-- Claim C5 (amended): every successful solve reports the per-category
constant temperature (0.3 for algebra and calculus, 0.4 for geometry and
statistics, 0.5 for general, 0.3 for any other key) in its `temperature`
field, and that constant is the temperature of the generation call exactly
when an explicit model override is supplied; otherwise the generation runs
at the solver's construction-time LLM temperature. -/
theorem solver_temperature_field (enable_guardrails : Bool) (self_temp : ℚ)
    (outJudge : Except String String) (generation : ℚ → Except String String)
    (problem category : String) (model : Option String)
    (h : (SolverAgent.solveProblem enable_guardrails self_temp outJudge generation
        problem category model).error = none) :
    (SolverAgent.solveProblem enable_guardrails self_temp outJudge generation
        problem category model).temperature = temperatureFor category ∧
    (∀ m, model = some m →
      SolverAgent.generationTemperature self_temp model category = temperatureFor category) ∧
    (model = none →
      SolverAgent.generationTemperature self_temp model category = self_temp) := by
  refine ⟨?_, fun m hm => by simp [SolverAgent.generationTemperature, hm],
    fun hm => by simp [SolverAgent.generationTemperature, hm]⟩
  cases hg : generation (SolverAgent.generationTemperature self_temp model category) with
  | error e =>
    exfalso
    simp [SolverAgent.solveProblem, hg] at h
  | ok raw => simp [SolverAgent.solveProblem, hg]

/-- Witness for C5 (amended) at a concrete successful solve with an
explicit model override. -/
theorem solver_temperature_field_witness :
    (SolverAgent.solveProblem false (3/10) (Except.ok "APPROVED: YES")
        (fun _ => Except.ok "sol") "P" "algebra" (some "llama3-70b-8192")).error = none ∧
    (SolverAgent.solveProblem false (3/10) (Except.ok "APPROVED: YES")
        (fun _ => Except.ok "sol") "P" "algebra" (some "llama3-70b-8192")).temperature =
      temperatureFor "algebra" :=
  ⟨rfl,
    (solver_temperature_field false (3/10) (Except.ok "APPROVED: YES")
      (fun _ => Except.ok "sol") "P" "algebra" (some "llama3-70b-8192") rfl).1⟩

/-- Claim C7: feedback statistics on an empty store are exactly the zeroed
dictionary (no `approval_rate` key, no division) and never raise; on a
non-empty store every figure is recomputed from the full history: total,
mean rating, approved count, approval rate and insertion-ordered
per-category statistics with their means. -/
theorem feedback_stats_spec :
    FeedbackAgent.getFeedbackStats [] =
      { total_feedback := 0, average_rating := 0, approved_count := 0,
        approval_rate := none, category_stats := [] } ∧
    (∀ data : List FeedbackRecord, data ≠ [] →
      FeedbackAgent.getFeedbackStats data =
        { total_feedback := data.length
          average_rating := (((data.map (·.rating)).sum : ℤ) : ℚ) / (data.length : ℚ)
          approved_count := (data.filter (·.approved)).length
          approval_rate := some (((data.filter (·.approved)).length : ℚ) / (data.length : ℚ))
          category_stats := (data.foldl FeedbackAgent.bumpCategory []).map (fun p =>
            (p.1, { p.2 with
                      average_rating := (p.2.total_rating : ℚ) / (p.2.count : ℚ) })) }) := by
  refine ⟨rfl, fun data h => ?_⟩
  simp [FeedbackAgent.getFeedbackStats, h]

/-- Witness for C7 at a concrete one-record store. -/
theorem feedback_stats_spec_witness :
    ([(⟨"t", "P", "algebra", "S", 5, "", none, true⟩ : FeedbackRecord)] ≠ []) ∧
    FeedbackAgent.getFeedbackStats [(⟨"t", "P", "algebra", "S", 5, "", none, true⟩ : FeedbackRecord)] =
      { total_feedback := [(⟨"t", "P", "algebra", "S", 5, "", none, true⟩ : FeedbackRecord)].length
        average_rating :=
          ((([(⟨"t", "P", "algebra", "S", 5, "", none, true⟩ : FeedbackRecord)].map (·.rating)).sum : ℤ) : ℚ) /
            (([(⟨"t", "P", "algebra", "S", 5, "", none, true⟩ : FeedbackRecord)].length : ℕ) : ℚ)
        approved_count := ([(⟨"t", "P", "algebra", "S", 5, "", none, true⟩ : FeedbackRecord)].filter (·.approved)).length
        approval_rate := some
          ((([(⟨"t", "P", "algebra", "S", 5, "", none, true⟩ : FeedbackRecord)].filter (·.approved)).length : ℚ) /
            (([(⟨"t", "P", "algebra", "S", 5, "", none, true⟩ : FeedbackRecord)].length : ℕ) : ℚ))
        category_stats := ([(⟨"t", "P", "algebra", "S", 5, "", none, true⟩ : FeedbackRecord)].foldl FeedbackAgent.bumpCategory []).map
          (fun p => (p.1, { p.2 with average_rating := (p.2.total_rating : ℚ) / (p.2.count : ℚ) })) } :=
  ⟨by simp, feedback_stats_spec.2 _ (by simp)⟩

/-- Claim C8: when retrieval returns zero chunks and the question was not
blocked on input, the RAG answerer returns `success = false`,
`context_used = 0`, empty sources and the fixed "no relevant information"
answer; the result does not depend on the generation or output-judge
oracles (no generation model call is made). -/
theorem rag_no_context (enable_guardrails strict_mode : Bool)
    (inJudge outJudge generation : Except String String)
    (question : String) (category : Option String)
    (h : enable_guardrails = true →
      (InputGuardrail.validate strict_mode inJudge question).valid = true) :
    RAGAgent.answerQuestion enable_guardrails strict_mode inJudge outJudge []
        generation question category =
      { success := false
        question := none
        answer := "No relevant information found in the knowledge base. Please upload relevant documents first."
        sources := []
        context_used := 0
        model_used := none
        guardrail_status := "no_context"
        guardrail_details := none } := by
  cases enable_guardrails with
  | false => simp [RAGAgent.answerQuestion, RAGAgent.answerWithContext]
  | true =>
    have hv := h rfl
    simp [RAGAgent.answerQuestion, hv, RAGAgent.answerWithContext]

/-- Witness for C8 with guardrails disabled and an empty index. -/
theorem rag_no_context_witness :
    RAGAgent.answerQuestion false true (Except.ok "VALID: YES") (Except.ok "APPROVED: YES")
        [] (Except.ok "some answer") "What is a derivative" none =
      { success := false
        question := none
        answer := "No relevant information found in the knowledge base. Please upload relevant documents first."
        sources := []
        context_used := 0
        model_used := none
        guardrail_status := "no_context"
        guardrail_details := none } :=
  rag_no_context false true (Except.ok "VALID: YES") (Except.ok "APPROVED: YES")
    (Except.ok "some answer") "What is a derivative" none (by simp)

/-- Claim C9: deleting a document with no matching chunk returns `false`
and leaves the collection (hence its statistics) unchanged; clearing
succeeds on any collection, in particular an already-empty one, and the
statistics afterwards report zero chunks, no sources and no categories. -/
theorem vector_store_idempotence (col : List VectorStore.StoredChunk)
    (document_name : String)
    (h : ∀ c ∈ col, c.meta.source ≠ some document_name) :
    VectorStore.deleteDocument col document_name = (false, col) ∧
    VectorStore.getCollectionStats (VectorStore.deleteDocument col document_name).2 =
      VectorStore.getCollectionStats col ∧
    VectorStore.clearCollection col = (true, []) ∧
    VectorStore.getCollectionStats (VectorStore.clearCollection col).2 =
      { total_chunks := 0, categories := [], unique_documents := 0,
        document_names := [] } := by
  have hdel : VectorStore.deleteDocument col document_name = (false, col) := by
    have hfilter : col.filter (fun c => c.meta.source = some document_name) = [] := by
      rw [List.filter_eq_nil_iff]
      intro c hc
      simpa using h c hc
    simp [VectorStore.deleteDocument, hfilter]
  exact ⟨hdel, by rw [hdel], rfl, rfl⟩

/-- Witness for C9 at a concrete one-chunk collection and absent name. -/
theorem vector_store_idempotence_witness :
    (∀ c ∈ [(⟨"a_1", "chunk", ⟨some "doc.pdf", some "algebra"⟩⟩ : VectorStore.StoredChunk)],
      c.meta.source ≠ some "other.pdf") ∧
    VectorStore.deleteDocument
        [(⟨"a_1", "chunk", ⟨some "doc.pdf", some "algebra"⟩⟩ : VectorStore.StoredChunk)] "other.pdf" =
      (false, [(⟨"a_1", "chunk", ⟨some "doc.pdf", some "algebra"⟩⟩ : VectorStore.StoredChunk)]) :=
  ⟨by decide, (vector_store_idempotence _ "other.pdf" (by decide)).1⟩

namespace DSPyOptimizer

/-- A category whose feedback group has fewer than 3 records never
qualifies for optimization. -/
theorem qualifies_false_of_short {α : Type}
    (compileFn : String → List TrainExample → Except String α)
    (p : String × List FeedbackRecord) (h : p.2.length < 3) :
    qualifies compileFn p = false := by
  simp [qualifies, h]

/-- A category whose qualifying training set has fewer than 2 examples
never qualifies for optimization. -/
theorem qualifies_false_of_few_examples {α : Type}
    (compileFn : String → List TrainExample → Except String α)
    (p : String × List FeedbackRecord)
    (h : (createTrainingExamples p.2).length < 2) :
    qualifies compileFn p = false := by
  simp [qualifies, h]

/-- A non-qualifying loop iteration leaves the accumulator unchanged. -/
theorem optStep_of_not_qualifies {α : Type}
    (compileFn : String → List TrainExample → Except String α)
    (acc : List String × List (String × α)) (p : String × List FeedbackRecord)
    (h : qualifies compileFn p = false) :
    optStep compileFn acc p = acc := by
  unfold optStep
  by_cases h3 : p.2.length < 3
  · simp [h3]
  · by_cases h2 : (createTrainingExamples p.2).length < 2
    · simp [h3, h2]
    · cases hc : compileFn p.1 (createTrainingExamples p.2) with
      | ok s => exact absurd h (by simp [qualifies, h3, h2, hc])
      | error e => simp [h3, h2, hc]

/-- A qualifying loop iteration appends its category and replaces its
solver entry. -/
theorem optStep_of_qualifies {α : Type}
    (compileFn : String → List TrainExample → Except String α)
    (acc : List String × List (String × α)) (p : String × List FeedbackRecord)
    (h : qualifies compileFn p = true) :
    ∃ s, compileFn p.1 (createTrainingExamples p.2) = .ok s ∧
      optStep compileFn acc p = (acc.1 ++ [p.1], setSolver acc.2 p.1 s) := by
  by_cases h3 : p.2.length < 3
  · exact absurd h (by simp [qualifies_false_of_short compileFn p h3])
  · by_cases h2 : (createTrainingExamples p.2).length < 2
    · exact absurd h (by simp [qualifies_false_of_few_examples compileFn p h2])
    · cases hc : compileFn p.1 (createTrainingExamples p.2) with
      | error e => exact absurd h (by simp [qualifies, hc])
      | ok s => exact ⟨s, rfl, by simp [optStep, h3, h2, hc]⟩

/-- The categories accumulated by the optimization loop are exactly the
qualifying ones, in order. -/
theorem foldl_optStep_fst {α : Type}
    (compileFn : String → List TrainExample → Except String α)
    (L : List (String × List FeedbackRecord)) :
    ∀ acc : List String × List (String × α),
      (L.foldl (optStep compileFn) acc).1 =
        acc.1 ++ (L.filter (qualifies compileFn)).map Prod.fst := by
  induction L with
  | nil => intro acc; simp
  | cons p t ih =>
    intro acc
    by_cases hq : qualifies compileFn p = true
    · obtain ⟨s, _, hstep⟩ := optStep_of_qualifies compileFn acc p hq
      rw [List.foldl_cons, hstep, ih]
      simp [hq]
    · have hq' : qualifies compileFn p = false := by simpa using hq
      rw [List.foldl_cons, optStep_of_not_qualifies compileFn acc p hq', ih]
      simp [hq']

/-- If no group qualifies, the whole loop is the identity on the
accumulator (so previously persisted solvers are untouched). -/
theorem foldl_optStep_of_none_qualifies {α : Type}
    (compileFn : String → List TrainExample → Except String α)
    (L : List (String × List FeedbackRecord))
    (h : ∀ p ∈ L, qualifies compileFn p = false) :
    ∀ acc : List String × List (String × α),
      L.foldl (optStep compileFn) acc = acc := by
  induction L with
  | nil => intro acc; simp
  | cons p t ih =>
    intro acc
    rw [List.foldl_cons, optStep_of_not_qualifies compileFn acc p (h p (by simp))]
    exact ih (fun q hq => h q (by simp [hq])) acc

/-- Replacing one category's solver leaves every other category's lookup
unchanged. -/
theorem setSolver_lookup_ne {α : Type} (s : List (String × α)) (c : String)
    (v : α) (c' : String) (h : c' ≠ c) :
    (setSolver s c v).lookup c' = s.lookup c' := by
  have hb : (c' == c) = false := beq_eq_false_iff_ne.mpr h
  induction s with
  | nil => simp [setSolver, List.lookup, hb]
  | cons hd tl ih =>
    by_cases hc : hd.1 = c
    · cases hd with
      | mk k w =>
        simp only at hc
        subst hc
        simp [setSolver, List.lookup, hb]
    · cases hd with
      | mk k w =>
        simp only at hc
        simp [setSolver, hc, List.lookup, ih]

/-- The loop never touches the solver entry of a category it did not
optimize. -/
theorem foldl_optStep_lookup {α : Type}
    (compileFn : String → List TrainExample → Except String α)
    (L : List (String × List FeedbackRecord)) :
    ∀ (acc : List String × List (String × α)) (c : String),
      c ∉ (L.filter (qualifies compileFn)).map Prod.fst →
      ((L.foldl (optStep compileFn) acc).2).lookup c = acc.2.lookup c := by
  induction L with
  | nil => intro acc c _; simp
  | cons p t ih =>
    intro acc c hc
    by_cases hq : qualifies compileFn p = true
    · obtain ⟨s, _, hstep⟩ := optStep_of_qualifies compileFn acc p hq
      have hmap : ((p :: t).filter (qualifies compileFn)).map Prod.fst =
          p.1 :: (t.filter (qualifies compileFn)).map Prod.fst := by
        simp [hq]
      rw [hmap] at hc
      have hcne : c ≠ p.1 := fun hce => hc (by simp [hce])
      have hct : c ∉ (t.filter (qualifies compileFn)).map Prod.fst :=
        fun hmem => hc (by simp [hmem])
      rw [List.foldl_cons, hstep, ih _ c hct]
      exact setSolver_lookup_ne acc.2 p.1 s c hcne
    · have hq' : qualifies compileFn p = false := by simpa using hq
      rw [List.foldl_cons, optStep_of_not_qualifies compileFn acc p hq']
      apply ih
      intro hmem
      apply hc
      have : (p :: t).filter (qualifies compileFn) = t.filter (qualifies compileFn) := by
        simp [hq']
      rw [this]
      exact hmem

/-- Grouping: the keys after one insertion. -/
theorem addToGroup_keys (l : List (String × List FeedbackRecord)) (r : FeedbackRecord) :
    (addToGroup l r).map Prod.fst =
      if r.category ∈ l.map Prod.fst then l.map Prod.fst
      else l.map Prod.fst ++ [r.category] := by
  induction l with
  | nil => simp [addToGroup]
  | cons hd tl ih =>
    cases hd with
    | mk k g =>
      by_cases hc : k = r.category
      · subst hc
        simp [addToGroup]
      · have hc' : ¬ r.category = k := fun he => hc he.symm
        by_cases hm : r.category ∈ tl.map Prod.fst
        · simp [addToGroup, hc, ih, hm, hc']
        · simp [addToGroup, hc, ih, hm, hc']

/-- The per-category grouping produces pairwise-distinct category keys. -/
theorem groupByCategory_keys_nodup (data : List FeedbackRecord) :
    ((groupByCategory data).map Prod.fst).Nodup := by
  suffices h : ∀ acc : List (String × List FeedbackRecord),
      (acc.map Prod.fst).Nodup → ((data.foldl addToGroup acc).map Prod.fst).Nodup by
    exact h [] (by simp)
  induction data with
  | nil => intro acc hacc; simpa using hacc
  | cons r t ih =>
    intro acc hacc
    rw [List.foldl_cons]
    apply ih
    rw [addToGroup_keys]
    by_cases hm : r.category ∈ acc.map Prod.fst
    · simpa [hm] using hacc
    · simp [hm, List.nodup_append, hacc]

/-- In a list with pairwise-distinct keys, entries are determined by their
key. -/
theorem eq_of_mem_keys_nodup {β : Type} {L : List (String × β)}
    (hnd : (L.map Prod.fst).Nodup) {p q : String × β}
    (hp : p ∈ L) (hq : q ∈ L) (hpq : p.1 = q.1) : p = q := by
  induction L with
  | nil => cases hp
  | cons hd tl ih =>
    rw [List.map_cons, List.nodup_cons] at hnd
    rcases List.mem_cons.mp hp with hp1 | hp1 <;> rcases List.mem_cons.mp hq with hq1 | hq1
    · rw [hp1, hq1]
    · exfalso
      apply hnd.1
      rw [hp1] at hpq
      rw [hpq]
      exact List.mem_map_of_mem Prod.fst hq1
    · exfalso
      apply hnd.1
      rw [hq1] at hpq
      rw [← hpq]
      exact List.mem_map_of_mem Prod.fst hp1
    · exact ih hnd.2 hp1 hq1

/-- The groups the optimization loop iterates over have pairwise-distinct
category keys. -/
theorem selectedGroups_keys_nodup (data : List FeedbackRecord)
    (category : Option String) :
    ((selectedGroups data category).map Prod.fst).Nodup := by
  cases category with
  | none => exact groupByCategory_keys_nodup data
  | some c => simp [selectedGroups]

/-- Training examples are mined exclusively from approved (`rating >= 4`)
feedback records, copying their problem, category and solution. -/
theorem createTrainingExamples_mem (fl : List FeedbackRecord) (e : TrainExample)
    (he : e ∈ createTrainingExamples fl) :
    ∃ r ∈ fl, r.approved = true ∧ 4 ≤ r.rating ∧
      e = ⟨r.problem, r.category, r.solution⟩ := by
  simp only [createTrainingExamples, List.mem_map, List.mem_filter] at he
  obtain ⟨r, ⟨hr, hcond⟩, he⟩ := he
  rw [Bool.and_eq_true, decide_eq_true_eq] at hcond
  exact ⟨r, hr, hcond.1, hcond.2, he.symm⟩

/-- Claim C6: the optimization compile step skips every category with fewer
than 3 feedback records, builds training examples only from approved
records, requires at least 2 qualifying examples per category, returns the
`no_data` (empty store) or `no_optimization` status with an empty optimized
list when no category qualifies — leaving the persisted solver dictionary
exactly as it was — and in general never touches the solver entry of a
category it did not optimize. -/
theorem optimize_skip_policy {α : Type}
    (compileFn : String → List TrainExample → Except String α)
    (solvers : List (String × α)) (feedback_data : List FeedbackRecord)
    (category : Option String) :
    (∀ p ∈ selectedGroups feedback_data category,
      (p.2.length < 3 ∨ (createTrainingExamples p.2).length < 2) →
      p.1 ∉ (optimizeFromFeedback compileFn solvers feedback_data category).1.optimized_categories) ∧
    (∀ (fl : List FeedbackRecord) (e : TrainExample), e ∈ createTrainingExamples fl →
      ∃ r ∈ fl, r.approved = true ∧ 4 ≤ r.rating ∧
        e = ⟨r.problem, r.category, r.solution⟩) ∧
    ((∀ p ∈ selectedGroups feedback_data category, p.2.length < 3) →
      (optimizeFromFeedback compileFn solvers feedback_data category).1.optimized_categories = [] ∧
      ((optimizeFromFeedback compileFn solvers feedback_data category).1.status = "no_data" ∨
        (optimizeFromFeedback compileFn solvers feedback_data category).1.status = "no_optimization") ∧
      (optimizeFromFeedback compileFn solvers feedback_data category).2 = solvers) ∧
    (∀ c : String,
      c ∉ (optimizeFromFeedback compileFn solvers feedback_data category).1.optimized_categories →
      ((optimizeFromFeedback compileFn solvers feedback_data category).2).lookup c =
        solvers.lookup c) := by
  by_cases hempty : feedback_data.isEmpty
  · have hres : optimizeFromFeedback compileFn solvers feedback_data category =
        ({ status := "no_data", optimized_categories := [], total_feedback := none }, solvers) := by
      simp [optimizeFromFeedback, hempty]
    refine ⟨fun p _ _ => by simp [hres], createTrainingExamples_mem,
      fun _ => by simp [hres], fun c _ => by simp [hres]⟩
  · have key1 : (optimizeFromFeedback compileFn solvers feedback_data category).1.optimized_categories =
        ((selectedGroups feedback_data category).filter (qualifies compileFn)).map Prod.fst := by
      simp [optimizeFromFeedback, hempty, foldl_optStep_fst]
    have key2 : (optimizeFromFeedback compileFn solvers feedback_data category).2 =
        ((selectedGroups feedback_data category).foldl (optStep compileFn) ([], solvers)).2 := by
      simp [optimizeFromFeedback, hempty]
    refine ⟨?_, createTrainingExamples_mem, ?_, ?_⟩
    · intro p hp hcase
      rw [key1]
      intro hmem
      obtain ⟨q, hqf, hqp⟩ := List.mem_map.mp hmem
      have hqsel : q ∈ selectedGroups feedback_data category := List.mem_of_mem_filter hqf
      have hqq : qualifies compileFn q = true := List.of_mem_filter hqf
      have hqe : q = p :=
        eq_of_mem_keys_nodup (selectedGroups_keys_nodup feedback_data category) hqsel hp hqp
      rw [hqe] at hqq
      cases hcase with
      | inl h3 => rw [qualifies_false_of_short compileFn p h3] at hqq; cases hqq
      | inr h2 => rw [qualifies_false_of_few_examples compileFn p h2] at hqq; cases hqq
    · intro hall
      have hfq : ∀ p ∈ selectedGroups feedback_data category, qualifies compileFn p = false :=
        fun p hp => qualifies_false_of_short compileFn p (hall p hp)
      have hid := foldl_optStep_of_none_qualifies compileFn _ hfq
        (([], solvers) : List String × List (String × α))
      have hres : optimizeFromFeedback compileFn solvers feedback_data category =
          ({ status := "no_optimization", optimized_categories := [],
             total_feedback := some feedback_data.length }, solvers) := by
        simp [optimizeFromFeedback, hempty, hid]
      exact ⟨by simp [hres], Or.inr (by simp [hres]), by simp [hres]⟩
    · intro c hc
      rw [key1] at hc
      rw [key2]
      exact foldl_optStep_lookup compileFn _ ([], solvers) c hc

/-- Witness for C6: a one-record store where the only category has fewer
than 3 records, so nothing is optimized and the persisted solver
dictionary is returned unchanged. -/
theorem optimize_skip_policy_witness :
    (∀ p ∈ selectedGroups [(⟨"t", "P", "algebra", "S", 5, "", none, true⟩ : FeedbackRecord)] none,
      p.2.length < 3) ∧
    ((optimizeFromFeedback (fun _ _ => Except.ok ()) [("algebra", ())]
        [(⟨"t", "P", "algebra", "S", 5, "", none, true⟩ : FeedbackRecord)] none).1.optimized_categories = [] ∧
      ((optimizeFromFeedback (fun _ _ => Except.ok ()) [("algebra", ())]
          [(⟨"t", "P", "algebra", "S", 5, "", none, true⟩ : FeedbackRecord)] none).1.status = "no_data" ∨
        (optimizeFromFeedback (fun _ _ => Except.ok ()) [("algebra", ())]
          [(⟨"t", "P", "algebra", "S", 5, "", none, true⟩ : FeedbackRecord)] none).1.status = "no_optimization") ∧
      (optimizeFromFeedback (fun _ _ => Except.ok ()) [("algebra", ())]
        [(⟨"t", "P", "algebra", "S", 5, "", none, true⟩ : FeedbackRecord)] none).2 = [("algebra", ())]) :=
  ⟨by decide,
    (optimize_skip_policy (fun _ _ => Except.ok ()) [("algebra", ())]
      [(⟨"t", "P", "algebra", "S", 5, "", none, true⟩ : FeedbackRecord)] none).2.2.1 (by decide)⟩

end DSPyOptimizer

end MathAgent
